/-
Verification of the connection/session protocol and violation-escalation
engine of the Pengawas-Pintar proctoring system, against its natural
language specification.

The Python sources are shallowly embedded as executable Lean definitions:

* `src/shared/networking/protocol.py`  -> `MessageType`, `Message`,
  `Message.to_dict`, `Message.from_dict`
* `src/shared/database/models.py`      -> `Participant`, `Violation`,
  `PermissionRequest`, status and violation enumerations
* `src/shared/database/database_manager.py` -> `DBState` and its operations
* `src/shared/networking/server.py`    -> `ServerState`, `send_message`,
  `broadcast_message`, `disconnect_client`
* `src/shared/networking/client.py`    -> the `CStep`/`CTrace` transition
  system for the reconnection loop
* `src/admin_app/app.py`               -> `AppState`, `handle_register`,
  `handle_violation_report`, `handle_violation_auto`,
  `update_integrity_score_app`

Modelling conventions:
* Wall-clock time is modelled as a natural number of minutes since an
  arbitrary epoch (`timedelta(minutes=d)` becomes `+ d`).  Each database
  operation receives the single instant `now` at which it runs; the
  repeated `datetime.utcnow()` calls inside one operation are modelled as
  that one instant.
* Python `datetime` values carried inside messages are modelled by their
  ISO-8601 string; `isoformat`/`fromisoformat` are then the identity.
* `json.dumps`/`json.loads` (the Python standard library) are a lossless
  external bijection between flat dictionaries and byte strings, so the
  codec is modelled at the dictionary level (`MessageDict`); the claims
  about `encode`/`decode` become claims about `to_dict`/`from_dict`.
* SQLAlchemy result sets are association lists; `filter_by(...).first()`
  is `List.find?`, an in-place UPDATE of the first matching row is
  `updateFirst`.  ORM instances returned by `DatabaseManager` are plain
  values: once fetched they are detached snapshots (the sessionmaker uses
  `expire_on_commit=False`) and are NOT refreshed by later database
  writes.  This detachment is represented directly: a fetched
  `Participant` value is immutable, and later operations produce a new
  `DBState`.
* An `Enum(PermissionStatus)` column stores the member NAME; binding any
  other string passes it through unchanged into the stored column (the
  default `validate_strings=False`), and reading back a stored string
  that is not a member name raises `LookupError` — modelled by
  `PermissionStatus.fromName` returning `none`.  `PermissionRequest.status`
  therefore holds the raw stored column string.
* Python exceptions surface as `Except`; float arithmetic on the integer
  valued integrity-score computation is exact in the relevant range and
  is modelled over `Int`.
-/
import Mathlib

set_option linter.unusedVariables false

/-! ## Generic helpers -/

/-- Update the first element of a list satisfying `p` (the effect of
mutating the row returned by `filter_by(...).first()` inside a session). -/
def updateFirst (p : α → Bool) (f : α → α) : List α → List α
  | [] => []
  | a :: as => if p a then f a :: as else a :: updateFirst p f as

/-- Python `str.lower()` (ASCII case folding, as used on the roster
names). -/
def pyLower (s : String) : String := String.mk (s.data.map Char.toLower)

/-- Python `str.strip()`: remove leading and trailing whitespace. -/
def pyStrip (s : String) : String :=
  String.mk (((s.data.dropWhile Char.isWhitespace).reverse.dropWhile
    Char.isWhitespace).reverse)

/-! ## Protocol codec (`src/shared/networking/protocol.py`) -/

/-- A flat JSON-representable Python value, as carried in the `data`
payload of a protocol message. -/
inductive PyValue where
  | none : PyValue
  | bool : Bool → PyValue
  | int : Int → PyValue
  | str : String → PyValue
  deriving DecidableEq, Repr

/-- `class MessageType(Enum)`: the closed message-type enumeration. -/
inductive MessageType where
  | register | heartbeat | violation_report | permission_request
  | status_update
  | register_ack | config_update | warning | lock | unlock
  | permission_response | emergency_lock
  | ping | pong
  deriving DecidableEq, Repr, Fintype

/-- The `.value` string of each `MessageType` member. -/
def MessageType.value : MessageType → String
  | .register => "register"
  | .heartbeat => "heartbeat"
  | .violation_report => "violation_report"
  | .permission_request => "permission_request"
  | .status_update => "status_update"
  | .register_ack => "register_ack"
  | .config_update => "config_update"
  | .warning => "warning"
  | .lock => "lock"
  | .unlock => "unlock"
  | .permission_response => "permission_response"
  | .emergency_lock => "emergency_lock"
  | .ping => "ping"
  | .pong => "pong"

/-- The members of the enumeration, in declaration order. -/
def MessageType.members : List MessageType :=
  [.register, .heartbeat, .violation_report, .permission_request,
   .status_update, .register_ack, .config_update, .warning, .lock,
   .unlock, .permission_response, .emergency_lock, .ping, .pong]

/-- `MessageType(x)`: the value-based `Enum` lookup of Python.  Returns the
member whose `.value` equals `x`, and `none` (a `ValueError` at the call
site) otherwise.  Non-string values never match any member. -/
def MessageType.fromValue (v : PyValue) : Option MessageType :=
  MessageType.members.find? (fun t => v == .str t.value)

/-- A Python exception raised by the codec. -/
inductive PyError where
  | valueError : String → PyError
  deriving DecidableEq, Repr

/-- `class Message`: the protocol envelope.  `timestamp` is the ISO-8601
string of the carried `datetime`. -/
structure Message where
  type : MessageType
  data : List (String × PyValue)
  participant_id : Option String
  timestamp : String
  deriving DecidableEq, Repr

/-- The dictionary form of an envelope: what `json.loads` yields from the
wire bytes (and what `json.dumps` serializes).  The `type` field is an
arbitrary JSON value here, since the wire is untrusted. -/
structure MessageDict where
  type : PyValue
  data : List (String × PyValue)
  participant_id : Option String
  timestamp : String
  deriving DecidableEq, Repr

/-- `Message.to_dict`. -/
def Message.to_dict (m : Message) : MessageDict :=
  { type := .str m.type.value
    data := m.data
    participant_id := m.participant_id
    timestamp := m.timestamp }

/-- `Message.from_dict`.  Python evaluates `MessageType(data["type"])`
first (left-to-right argument evaluation), so an unknown type value raises
`ValueError` before anything else is examined. -/
def Message.from_dict (d : MessageDict) : Except PyError Message :=
  match MessageType.fromValue d.type with
  | Option.none =>
      .error (.valueError "is not a valid MessageType")
  | some t =>
      .ok { type := t
            data := d.data
            participant_id := d.participant_id
            timestamp := d.timestamp }

/-! ## Database models (`src/shared/database/models.py`) -/

/-- `class ViolationType(enum.Enum)`. -/
inductive ViolationType where
  | application_blocked | process_termination_attempt | face_absence
  | multiple_faces | suspicious_movement | voice_activity
  | multiple_speakers | screen_switch | shortcut_blocked
  | unauthorized_website
  deriving DecidableEq, Repr

/-- `class ViolationSeverity(enum.Enum)`. -/
inductive ViolationSeverity where
  | low | medium | high | critical
  deriving DecidableEq, Repr

/-- `class PermissionStatus(enum.Enum)`. -/
inductive PermissionStatus where
  | pending | approved | rejected | expired
  deriving DecidableEq, Repr

/-- The member NAME of each `PermissionStatus`.  SQLAlchemy persists the
NAME (not the `.value` string) in an `Enum(PermissionStatus)` column. -/
def PermissionStatus.name : PermissionStatus → String
  | .pending => "PENDING"
  | .approved => "APPROVED"
  | .rejected => "REJECTED"
  | .expired => "EXPIRED"

/-- The `.value` string of each member (what `request.status.value` is
compared against in the manager). -/
def PermissionStatus.value : PermissionStatus → String
  | .pending => "pending"
  | .approved => "approved"
  | .rejected => "rejected"
  | .expired => "expired"

/-- Members in declaration order. -/
def PermissionStatus.members : List PermissionStatus :=
  [.pending, .approved, .rejected, .expired]

/-- Result processing of a stored `Enum(PermissionStatus)` column value:
the stored string is looked up among the member NAMES; `none` models the
`LookupError` SQLAlchemy raises when materializing a row whose stored
string is not a member name. -/
def PermissionStatus.fromName (s : String) : Option PermissionStatus :=
  PermissionStatus.members.find? (fun st => st.name == s)

/-- The `LookupError` message for a stored enum string that is not a
member name (Python quotes the offending value; the quoting is elided
here). -/
def enumLookupError (s : String) : String :=
  "LookupError: " ++ s ++ " is not among the defined enum values"

/-- Row of `participants`.  `id` is the integer primary key,
`participant_id` the external string identity.  Scores are modelled over
`Int`: the Python float arithmetic on these integer-valued quantities is
exact wherever it affects the clamped result. -/
structure Participant where
  id : Nat
  participant_id : String
  name : String
  exam_session_id : Option Nat
  computer_ip : Option String
  computer_name : Option String
  last_heartbeat : Option Nat
  is_active : Bool
  integrity_score : Int
  warning_count : Nat
  violation_count : Nat
  is_locked : Bool
  deriving DecidableEq, Repr

/-- Row of `violations` (fields the core reads). -/
structure Violation where
  id : Nat
  participant_id : Nat
  exam_session_id : Nat
  violation_type : ViolationType
  severity : ViolationSeverity
  description : String
  deriving DecidableEq, Repr

/-- Row of `permission_requests`.  `status` holds the raw string the
database stores for the `Enum(PermissionStatus)` column: a member NAME
when the row was written with a member or name, or any other literal
string, since with the default `validate_strings=False` SQLAlchemy passes
unknown bound strings through unchanged on write and only fails when the
row is read back (`PermissionStatus.fromName`). -/
structure PermissionRequest where
  id : Nat
  participant_id : Nat
  request_type : String
  status : String
  approved_at : Option Nat
  expires_at : Option Nat
  duration_minutes : Nat
  reason : Option String
  deriving DecidableEq, Repr

/-! ## Database manager (`src/shared/database/database_manager.py`)

Each operation mirrors one method of `DatabaseManager`.  An operation is
one transactional session (`with self.get_session()`); operations that
Python runs for their side effect return the new `DBState`. -/

/-- The durable state owned by the persistence collaborator, plus the
SQLite autoincrement counters. -/
structure DBState where
  participants : List Participant
  violations : List Violation
  requests : List PermissionRequest
  next_violation_id : Nat
  next_request_id : Nat
  deriving DecidableEq, Repr

/-- `session.query(Participant).filter_by(participant_id=...).first()`. -/
def findParticipant (l : List Participant) (pid : String) : Option Participant :=
  l.find? (fun p => p.participant_id == pid)

/-- `DatabaseManager.update_participant_heartbeat`. -/
def update_participant_heartbeat (db : DBState) (pid : String) (now : Nat) : DBState :=
  { db with participants :=
      (updateFirst (fun p => p.participant_id == pid)
        (fun p => { p with last_heartbeat := some now, is_active := true })
        db.participants) }

/-- `DatabaseManager.update_integrity_score` (clamps into `[0, 100]`). -/
def update_integrity_score (db : DBState) (pid : String) (score : Int) : DBState :=
  { db with participants :=
      (updateFirst (fun p => p.participant_id == pid)
        (fun p => { p with integrity_score := max 0 (min 100 score) })
        db.participants) }

/-- `DatabaseManager.increment_warning_count`. -/
def increment_warning_count (db : DBState) (pid : String) : DBState :=
  { db with participants :=
      (updateFirst (fun p => p.participant_id == pid)
        (fun p => { p with warning_count := p.warning_count + 1 })
        db.participants) }

/-- `DatabaseManager.lock_participant`. -/
def lock_participant (db : DBState) (pid : String) (locked : Bool) : DBState :=
  { db with participants :=
      (updateFirst (fun p => p.participant_id == pid)
        (fun p => { p with is_locked := locked })
        db.participants) }

/-- `DatabaseManager.create_violation`: raises
`ValueError(f"Participant {participant_id} not found")` when the
participant is unknown, otherwise inserts the violation and increments
the `violation_count` of that participant in the same transaction. -/
def create_violation (db : DBState) (pid : String) (exam_session_id : Nat)
    (vtype : ViolationType) (severity : ViolationSeverity)
    (description : String) : Except String (Violation × DBState) :=
  match findParticipant db.participants pid with
  | Option.none => .error s!"Participant {pid} not found"
  | some participant =>
      let violation : Violation :=
        { id := db.next_violation_id
          participant_id := participant.id
          exam_session_id := exam_session_id
          violation_type := vtype
          severity := severity
          description := description }
      .ok (violation,
        { db with
            violations := db.violations ++ [violation]
            next_violation_id := db.next_violation_id + 1
            participants :=
              (updateFirst (fun p => p.participant_id == pid)
                (fun p => { p with violation_count := p.violation_count + 1 })
                db.participants) })

/-- `DatabaseManager.create_permission_request`: raises
`ValueError(f"Participant {participant_id} not found")` when the
participant is unknown, otherwise inserts a PENDING request. -/
def create_permission_request (db : DBState) (pid : String)
    (request_type : String) (duration_minutes : Nat) (reason : Option String) :
    Except String (PermissionRequest × DBState) :=
  match findParticipant db.participants pid with
  | Option.none => .error s!"Participant {pid} not found"
  | some participant =>
      -- the source binds the VALUE string "pending"; the bind passes it
      -- through unchanged into the stored column
      let request : PermissionRequest :=
        { id := db.next_request_id
          participant_id := participant.id
          request_type := request_type
          status := "pending"
          approved_at := Option.none
          expires_at := Option.none
          duration_minutes := duration_minutes
          reason := reason }
      -- `session.refresh(request)` re-reads the inserted row, which
      -- result-processes the stored status string; when it is not a
      -- member NAME this raises LookupError before the commit, so the
      -- transaction rolls back and nothing is persisted
      match PermissionStatus.fromName request.status with
      | some _ =>
          .ok (request,
            { db with
                requests := db.requests ++ [request]
                next_request_id := db.next_request_id + 1 })
      | Option.none => .error (enumLookupError request.status)

/-- `DatabaseManager.approve_permission_request`.  The
`filter_by(id=...).first()` query materializes the row, which
result-processes its stored status string (LookupError when it is not a
member name).  On a readable PENDING row the check
`request.status.value == "pending"` passes and the method sets
`approved_at := now`, `expires_at := now + duration_minutes` and
`request.status = "approved"` — the VALUE string, which the commit binds
through unchanged into the stored column — and returns `true`; otherwise
it returns `false` and changes nothing. -/
def approve_permission_request (db : DBState) (request_id : Nat) (now : Nat) :
    Except String (Bool × DBState) :=
  match db.requests.find? (fun r => r.id == request_id) with
  | some r =>
      match PermissionStatus.fromName r.status with
      | Option.none => .error (enumLookupError r.status)
      | some st =>
          if st.value == "pending" then
            .ok (true,
              { db with requests :=
                  (updateFirst (fun q => q.id == request_id)
                    (fun q => { q with
                        status := "approved"
                        approved_at := some now
                        expires_at := some (now + q.duration_minutes) })
                    db.requests) })
          else .ok (false, db)
  | Option.none => .ok (false, db)

/-- `DatabaseManager.get_active_permission`: selects the first request of
the participant with `status = "approved"` — a comparison on the STORED
column strings, the bound value string passing through unchanged — and
`expires_at > now` (lazy expiry: a `NULL` or past `expires_at` is simply
filtered out; nothing is ever transitioned to EXPIRED).  `.first()` then
materializes the matched row, result-processing its stored status string:
LookupError when that string is not a member NAME. -/
def get_active_permission (db : DBState) (pid : String) (now : Nat) :
    Except String (Option PermissionRequest) :=
  match findParticipant db.participants pid with
  | Option.none => .ok Option.none
  | some participant =>
      match db.requests.find? (fun r =>
        r.participant_id == participant.id &&
        r.status == "approved" &&
        match r.expires_at with
        | some e => decide (now < e)
        | Option.none => false) with
      | Option.none => .ok Option.none
      | some r =>
          match PermissionStatus.fromName r.status with
          | some _ => .ok (some r)
          | Option.none => .error (enumLookupError r.status)

/-! ## Connection registry (`src/shared/networking/server.py`)

`connected_clients` is the dict from participant id to its live WebSocket
handle.  A handle is modelled by whether a write over it currently
succeeds (`true`) or raises (`false`); `client_info` keeps the two fields
`_disconnect_client` touches. -/

/-- The mutable entry of `client_info` that disconnect handling uses. -/
structure ClientInfo where
  last_seen : Option Nat
  connected : Bool
  deriving DecidableEq, Repr

/-- In-memory state of `ProctoringServer`. -/
structure ServerState where
  connected_clients : List (String × Bool)
  client_info : List (String × ClientInfo)
  deriving DecidableEq, Repr

/-- Dictionary lookup (`d[k]` / `k in d`) on an association list. -/
def dget (l : List (String × β)) (k : String) : Option β :=
  (l.find? (fun kv => kv.1 == k)).map Prod.snd

/-- `ProctoringServer._disconnect_client`: removes the live handle (if
present) and records last-seen time on the info entry (if present);
idempotent. -/
def disconnect_client (st : ServerState) (pid : String) (now : Nat) : ServerState :=
  { connected_clients := st.connected_clients.filter (fun kv => !(kv.1 == pid))
    client_info :=
      (updateFirst (fun kv => kv.1 == pid)
        (fun kv => (kv.1, { kv.2 with last_seen := some now, connected := false }))
        st.client_info) }

/-- `ProctoringServer.send_message`: delivered iff a live handle is
registered and the transport write succeeds; a failed write immediately
disconnects that participant; nothing is queued or retried. -/
def send_message (st : ServerState) (pid : String) (m : Message) (now : Nat) :
    Bool × ServerState :=
  match dget st.connected_clients pid with
  | some write_ok =>
      if write_ok then (true, st)
      else (false, disconnect_client st pid now)
  | Option.none => (false, st)

/-- The recursion of `ProctoringServer.broadcast_message` over the
snapshot `list(self.connected_clients.keys())`, also returning the ghost
log of attempted sends as `(participant_id, delivered)` pairs. -/
def broadcastAux (m : Message) (exclude : List String) (now : Nat) :
    ServerState → List String → ServerState × List (String × Bool)
  | st, [] => (st, [])
  | st, pid :: rest =>
      if pid ∈ exclude then broadcastAux m exclude now st rest
      else
        let r1 := send_message st pid m now
        let r2 := broadcastAux m exclude now r1.2 rest
        (r2.1, (pid, r1.1) :: r2.2)

/-- `ProctoringServer.broadcast_message`. -/
def broadcast_message (st : ServerState) (m : Message) (exclude : List String)
    (now : Nat) : ServerState × List (String × Bool) :=
  broadcastAux m exclude now st (st.connected_clients.map Prod.fst)

/-! ## Admin application (`src/admin_app/app.py`)

The handlers are extracted from `AdminApp` as pure functions over an
`AppState`.  Messages the handler passes to `ProctoringServer.send_message`
are returned in order as a list (the delivery outcome at the registry is
ignored by the handlers, as in the source). -/

/-- The `AdminApp` fields the modelled handlers read:
the persistence collaborator, `current_session_id`, `ai_proctor_mode`,
and the `ai_proctoring.escalation` config values
(`warnings_before_flag` defaults to 3, `warnings_before_lock` to 5). -/
structure AppState where
  db : DBState
  current_session_id : Option Nat
  ai_proctor_mode : Bool
  warnings_before_flag : Nat
  warnings_before_lock : Nat
  deriving DecidableEq, Repr

/-- `data.get(key, "")` for a string-valued field of a message payload
(the handlers only ever read string fields here). -/
def getStr (data : List (String × PyValue)) (key : String) : String :=
  match dget data key with
  | some (.str s) => s
  | _ => ""

/-- `AdminApp._update_integrity_score`: recompute
`max(0, 100 - 5*violation_count - 2*warning_count)` from the stored
counters and persist it; a no-op for an unknown participant. -/
def update_integrity_score_app (db : DBState) (pid : String) : DBState :=
  match findParticipant db.participants pid with
  | Option.none => db
  | some _ =>
      { db with participants :=
          (updateFirst (fun p => p.participant_id == pid)
            (fun p =>
              let base_score : Int := 100
              let violation_penalty : Int := (p.violation_count : Int) * 5
              let warning_penalty : Int := (p.warning_count : Int) * 2
              { p with integrity_score :=
                  (max 0 (base_score - violation_penalty - warning_penalty)) })
            db.participants) }

/-- `AdminApp._handle_register_async`: the three validations in source
order, each rejection replying `REGISTER_ACK{status:"rejected"}` with its
specific message and leaving the database untouched; on success the
participant row gets `computer_ip`, `computer_name`, `is_active := true`,
`last_heartbeat := now`, and the reply is
`REGISTER_ACK{status:"registered", participant_id, exam_session_id}`. -/
def handle_register (st : AppState) (pid : String) (m : Message) (now : Nat) :
    AppState × Message :=
  let name := pyStrip (getStr m.data "name")
  match findParticipant st.db.participants pid with
  | Option.none =>
      (st, { type := .register_ack
             data := [("status", .str "rejected"),
                      ("message", .str (s!"ID Peserta {pid} tidak terdaftar." ++
                        " Silakan hubungi pengawas."))]
             participant_id := some pid
             timestamp := "" })
  | some participant =>
      if pyLower participant.name ≠ pyLower name then
        (st, { type := .register_ack
               data := [("status", .str "rejected"),
                        ("message", .str
                          ("Nama tidak sesuai. Nama yang terdaftar: " ++ participant.name))]
               participant_id := some pid
               timestamp := "" })
      -- `not self.current_session_id or participant.exam_session_id !=
      -- self.current_session_id`; session ids are autoincrement keys
      -- starting at 1, so falsity of the Python truthiness test is exactly
      -- `current_session_id` being absent.
      else if st.current_session_id = Option.none ∨
          participant.exam_session_id ≠ st.current_session_id then
        (st, { type := .register_ack
               data := [("status", .str "rejected"),
                        ("message", .str "Sesi ujian tidak aktif atau tidak sesuai.")]
               participant_id := some pid
               timestamp := "" })
      else
        let computer_ip := getStr m.data "computer_ip"
        let computer_name := getStr m.data "computer_name"
        ({ st with db :=
            { st.db with participants :=
                (updateFirst (fun p => p.participant_id == pid)
                  (fun p => { p with
                      computer_ip := some computer_ip
                      computer_name := some computer_name
                      is_active := true
                      last_heartbeat := some now })
                  st.db.participants) } },
         { type := .register_ack
           data := [("status", .str "registered"),
                    ("participant_id", .str pid),
                    ("exam_session_id",
                      match st.current_session_id with
                      | some sid => .int (sid : Int)
                      | Option.none => .none)]
           participant_id := some pid
           timestamp := "" })

/-- `AdminApp._handle_violation_auto`.  `participant` is the detached
snapshot fetched *before* `increment_warning_count`, so the
`warning_count` placed in the WARNING payload and compared against the
escalation thresholds is the value it held at fetch time — the database
increment does not refresh it (`expire_on_commit=False`, separate
session). -/
def handle_violation_auto (st : AppState) (violation : Violation)
    (pid : String) : AppState × List Message :=
  match findParticipant st.db.participants pid with
  | Option.none => (st, [])
  | some participant =>
      let db1 := increment_warning_count st.db pid
      let warning_message : Message :=
        { type := .warning
          data := [("message", .str ("Peringatan: " ++ violation.description)),
                   ("warning_count", .int (participant.warning_count : Int))]
          participant_id := some pid
          timestamp := "" }
      if participant.warning_count ≥ st.warnings_before_lock then
        let db2 := lock_participant db1 pid true
        let lock_message : Message :=
          { type := .lock
            data := [("reason", .str "auto_escalation")]
            participant_id := some pid
            timestamp := "" }
        ({ st with db := db2 }, [warning_message, lock_message])
      else if participant.warning_count ≥ st.warnings_before_flag then
        let flag_message : Message :=
          { type := .warning
            data := [("message", .str "FLAG: Anda telah mencapai batas peringatan!"),
                     ("flag", .bool true)]
            participant_id := some pid
            timestamp := "" }
        ({ st with db := db1 }, [warning_message, flag_message])
      else
        ({ st with db := db1 }, [warning_message])

/-- `AdminApp._handle_violation_report`: under a current session, persist
the violation (raising if the participant is unknown), recompute the
integrity score, and if AI-Proctor mode is on run the auto-escalation
step. -/
def handle_violation_report (st : AppState) (pid : String)
    (vtype : ViolationType) (severity : ViolationSeverity)
    (description : String) : Except String (AppState × List Message) :=
  match st.current_session_id with
  | Option.none => .ok (st, [])
  | some sid =>
      match create_violation st.db pid sid vtype severity description with
      | .error e => .error e
      | .ok (violation, db1) =>
          let db2 :=
            match findParticipant db1.participants pid with
            | some _ => update_integrity_score_app db1 pid
            | Option.none => db1
          let st2 := { st with db := db2 }
          if st.ai_proctor_mode then
            .ok (handle_violation_auto st2 violation pid)
          else
            .ok (st2, [])

/-! ## Reconnection client (`src/shared/networking/client.py`)

`ProctoringClient.start` is the loop

```
self.running = True
while self.running:
    if await self.connect():
        await self.register(...)
        await self.listen()
    if self.running:
        await asyncio.sleep(self.reconnect_interval)   # 5 seconds
```

and `stop()` sets `self.running = False` and closes the transport.  It is
modelled as a labelled transition system: one step per basic block, with
the environment choosing connection outcomes and with `stop()` allowed to
interleave at any suspension point.  The `while` test and the `connect()`
call are one step (no suspension separates them in the source). -/

/-- Control locations of the `start` coroutine. -/
inductive CPc where
  | loopHead    -- about to test `self.running` at the top of the loop
  | registering -- `connect()` returned True; about to call `register`
  | listening   -- inside `listen()`
  | postSession -- at `if self.running: await asyncio.sleep(5)`
  | halted      -- `start` returned
  deriving DecidableEq, Repr

/-- Client state: the desired-connected flag `running`, the transport
presence `is_connected`, and the control location. -/
structure CState where
  running : Bool
  is_connected : Bool
  pc : CPc
  deriving DecidableEq, Repr

/-- Observable events of the client loop. -/
inductive CEv where
  | connectAttempt (ok : Bool) -- a call of `connect()` and its outcome
  | sendRegister               -- `register(...)`: REGISTER sent to server
  | recvMsg                    -- `listen()` processed one message
  | connLost                   -- `listen()` hit a closed/failed transport
  | sleepBackoff               -- `asyncio.sleep(reconnect_interval)` (5 s)
  | stopCalled                 -- `stop()` ran: flag cleared, transport closed
  | exitLoop                   -- the `while` condition was False; `start` returns
  deriving DecidableEq, Repr

/-- State of a freshly constructed `ProctoringClient` right after
`start` set `self.running = True`. -/
def cInit : CState := { running := true, is_connected := false, pc := .loopHead }

/-- One step of the client loop (or of a concurrent `stop()`). -/
inductive CStep : CState → CEv → CState → Prop where
  | attempt_ok :
      CStep { running := true, is_connected := c, pc := .loopHead }
        (.connectAttempt true)
        { running := true, is_connected := true, pc := .registering }
  | attempt_fail :
      CStep { running := true, is_connected := c, pc := .loopHead }
        (.connectAttempt false)
        { running := true, is_connected := false, pc := .postSession }
  | loop_exit :
      CStep { running := false, is_connected := c, pc := .loopHead }
        .exitLoop
        { running := false, is_connected := c, pc := .halted }
  | do_register :
      CStep { running := r, is_connected := c, pc := .registering }
        .sendRegister
        { running := r, is_connected := c, pc := .listening }
  | listen_recv :
      CStep { running := true, is_connected := true, pc := .listening }
        .recvMsg
        { running := true, is_connected := true, pc := .listening }
  | listen_lost :
      CStep { running := r, is_connected := c, pc := .listening }
        .connLost
        { running := r, is_connected := false, pc := .postSession }
  | listen_done :
      r = false ∨ c = false →
      CStep { running := r, is_connected := c, pc := .listening }
        .connLost
        { running := r, is_connected := c, pc := .postSession }
  | do_sleep :
      CStep { running := true, is_connected := c, pc := .postSession }
        .sleepBackoff
        { running := true, is_connected := c, pc := .loopHead }
  | skip_sleep :
      CStep { running := false, is_connected := c, pc := .postSession }
        .exitLoop
        { running := false, is_connected := c, pc := .halted }
  | do_stop :
      pc ≠ CPc.halted →
      CStep { running := r, is_connected := c, pc := pc }
        .stopCalled
        { running := false, is_connected := false, pc := pc }

/-- A finite run of the client: `CTrace s evs s'` means the loop steps
from `s` to `s'` emitting the events `evs` in order. -/
inductive CTrace : CState → List CEv → CState → Prop where
  | nil : CTrace s [] s
  | cons : CStep s e s1 → CTrace s1 evs s2 → CTrace s (e :: evs) s2

/-! ## Fixtures used to instantiate the theorems on concrete inputs -/

/-- Fixture: a registered participant used to instantiate the database
theorems on concrete inputs. -/
def demoParticipant : Participant :=
  { id := 1, participant_id := "P1", name := "Ani", exam_session_id := some 7
    computer_ip := Option.none, computer_name := Option.none
    last_heartbeat := Option.none, is_active := true, integrity_score := 100
    warning_count := 2, violation_count := 3, is_locked := false }

/-- Fixture: a pending leave-seat request of `demoParticipant`, stored
correctly (status column holds the member NAME), as a row written by a
path that binds the enum member would be. -/
def demoRequest : PermissionRequest :=
  { id := 1, participant_id := 1, request_type := "leave_seat"
    status := "PENDING", approved_at := Option.none
    expires_at := Option.none, duration_minutes := 10
    reason := Option.none }

/-- Fixture: a database holding exactly `demoParticipant` and
`demoRequest`. -/
def demoDB : DBState :=
  { participants := [demoParticipant], violations := [], requests := [demoRequest]
    next_violation_id := 1, next_request_id := 2 }

/-- Fixture: `demoDB` after `approve_permission_request` ran on
`demoRequest` at time 100. -/
def approvedDemoDB : DBState :=
  match approve_permission_request demoDB 1 100 with
  | .ok r => r.2
  | .error _ => demoDB

/-- Fixture: admin state holding `demoDB` with session 7 active. -/
def regDemoApp : AppState :=
  { db := demoDB, current_session_id := some 7, ai_proctor_mode := false
    warnings_before_flag := 3, warnings_before_lock := 5 }

/-- Fixture: a REGISTER message for `demoParticipant` whose supplied name
differs from the roster name only in case and surrounding blanks. -/
def regDemoMsg : Message :=
  { type := .register
    data := [("name", .str " ani "), ("computer_ip", .str "10.0.0.5"),
             ("computer_name", .str "LAB-01")]
    participant_id := some "P1"
    timestamp := "" }

/-! ## Auto-escalation run (claim C1)

The scenario of the claim: participant "P1" under active exam session 7,
auto-escalation on, `flag_threshold = 3`, `lock_threshold = 5`, and
sequential `application_blocked` violations. -/

/-- Fixture: "P1" freshly registered — no violations, no warnings,
unlocked. -/
def escalationParticipant : Participant :=
  { id := 1, participant_id := "P1", name := "Ani", exam_session_id := some 7
    computer_ip := Option.none, computer_name := Option.none
    last_heartbeat := Option.none, is_active := true, integrity_score := 100
    warning_count := 0, violation_count := 0, is_locked := false }

/-- Fixture: admin state for the scenario, AI-Proctor mode on. -/
def escalationApp : AppState :=
  { db := { participants := [escalationParticipant], violations := []
            requests := [], next_violation_id := 1, next_request_id := 1 }
    current_session_id := some 7, ai_proctor_mode := true
    warnings_before_flag := 3, warnings_before_lock := 5 }

/-- One sequential `application_blocked` violation of "P1", accumulating
the messages the engine pushes to the registry. -/
def escalationStep (s : AppState × List Message) : AppState × List Message :=
  match handle_violation_report s.1 "P1" .application_blocked .medium
      "Aplikasi terlarang" with
  | .ok (st2, msgs) => (st2, s.2 ++ msgs)
  | .error _ => s

/-- Fixture: a registry with one healthy handle, one failing handle, and
nothing else. -/
def demoServer : ServerState :=
  { connected_clients := [("P1", true), ("P2", false)]
    client_info := [("P1", { last_seen := Option.none, connected := true }),
                    ("P2", { last_seen := Option.none, connected := true })] }

/-- Fixture: a PING used as broadcast/send payload. -/
def demoPing : Message :=
  { type := .ping, data := [], participant_id := Option.none, timestamp := "" }

/-! ## Helper lemmas -/

theorem updateFirst_of_find?_eq_none (p : α → Bool) (f : α → α) (l : List α)
    (h : l.find? p = none) : updateFirst p f l = l := by
  induction l with
  | nil => rfl
  | cons a as ih =>
    rw [List.find?_cons] at h
    cases hpa : p a with
    | true => simp [hpa] at h
    | false =>
      simp only [hpa] at h
      simp [updateFirst, hpa, ih h]

theorem find?_updateFirst (p : α → Bool) (f : α → α) (l : List α) (x : α)
    (h : l.find? p = some x) (hf : p (f x) = true) :
    (updateFirst p f l).find? p = some (f x) := by
  induction l with
  | nil => simp at h
  | cons a as ih =>
    rw [List.find?_cons] at h
    cases hpa : p a with
    | true =>
      simp only [hpa] at h
      cases h
      simp [updateFirst, hpa, List.find?_cons, hf]
    | false =>
      simp only [hpa] at h
      simp [updateFirst, hpa, List.find?_cons, ih h]

theorem fromValue_value (t : MessageType) :
    MessageType.fromValue (.str t.value) = some t := by
  cases t <;> rfl

/-! ## Codec theorems (claims about `protocol.py`) -/

theorem fromValue_eq_some (v : PyValue) (t : MessageType)
    (h : MessageType.fromValue v = some t) : v = .str t.value := by
  have := List.find?_some h
  exact eq_of_beq this

/-- C2: decoding any envelope whose `type` field is not one of the
enumerated message-type values fails with an error (Python raises
`ValueError` from the `MessageType` lookup — what the spec calls a ProtocolError
class); no `Message` value is ever returned, so the input is not silently
dropped. -/
theorem decode_unknown_type_raises (d : MessageDict)
    (h : ∀ t : MessageType, d.type ≠ .str t.value) :
    Message.from_dict d = .error (.valueError "is not a valid MessageType") ∧
    ∀ m : Message, Message.from_dict d ≠ .ok m := by
  have hnone : MessageType.fromValue d.type = Option.none := by
    cases hv : MessageType.fromValue d.type with
    | none => rfl
    | some t => exact absurd (fromValue_eq_some _ _ hv) (h t)
  constructor
  · simp [Message.from_dict, hnone]
  · intro m
    simp [Message.from_dict, hnone]

theorem decode_unknown_type_raises_witness :
    (∀ t : MessageType,
      (MessageDict.mk (.str "bogus") [] Option.none "").type ≠ .str t.value) ∧
    (Message.from_dict (MessageDict.mk (.str "bogus") [] Option.none "") =
        .error (.valueError "is not a valid MessageType") ∧
      ∀ m : Message,
        Message.from_dict (MessageDict.mk (.str "bogus") [] Option.none "") ≠ .ok m) :=
  ⟨by decide,
   decode_unknown_type_raises (MessageDict.mk (.str "bogus") [] Option.none "")
     (by decide)⟩

/-- C5: decoding the encoding of any message — any enumerated type, any
flat payload (including the empty one), any optional participant_id —
yields a message whose `type`, `data` and `participant_id` equal those of
the original. -/
theorem decode_encode_roundtrip (m : Message) :
    ∃ m' : Message, Message.from_dict (Message.to_dict m) = .ok m' ∧
      m'.type = m.type ∧ m'.data = m.data ∧
      m'.participant_id = m.participant_id := by
  refine ⟨m, ?_, rfl, rfl, rfl⟩
  simp [Message.to_dict, Message.from_dict, fromValue_value]

/-! ## Database-manager theorems -/

/-- C10: calling the four UPDATE-style operations with an unknown
participant_id is a silent no-op (state unchanged, nothing raised), while
`create_violation` and `create_permission_request` raise
`ValueError("Participant <id> not found")` and leave state unchanged
(the error return carries the unmodified state implicitly: nothing is
inserted). -/
theorem db_ops_unknown_participant_spec (db : DBState) (pid : String)
    (now : Nat) (score : Int) (locked : Bool) (esid : Nat)
    (vtype : ViolationType) (severity : ViolationSeverity) (desc : String)
    (rtype : String) (dur : Nat) (reason : Option String)
    (h : findParticipant db.participants pid = Option.none) :
    update_participant_heartbeat db pid now = db ∧
    increment_warning_count db pid = db ∧
    lock_participant db pid locked = db ∧
    update_integrity_score db pid score = db ∧
    create_violation db pid esid vtype severity desc =
      .error s!"Participant {pid} not found" ∧
    create_permission_request db pid rtype dur reason =
      .error s!"Participant {pid} not found" := by
  have hf : db.participants.find? (fun p => p.participant_id == pid) =
      Option.none := h
  refine ⟨?_, ?_, ?_, ?_, ?_, ?_⟩
  · simp [update_participant_heartbeat, updateFirst_of_find?_eq_none _ _ _ hf]
  · simp [increment_warning_count, updateFirst_of_find?_eq_none _ _ _ hf]
  · simp [lock_participant, updateFirst_of_find?_eq_none _ _ _ hf]
  · simp [update_integrity_score, updateFirst_of_find?_eq_none _ _ _ hf]
  · simp [create_violation, h]
  · simp [create_permission_request, h]

theorem db_ops_unknown_participant_spec_witness :
    (findParticipant (DBState.mk [] [] [] 1 1).participants "ghost" =
      Option.none) ∧
    (update_participant_heartbeat (DBState.mk [] [] [] 1 1) "ghost" 0 =
        DBState.mk [] [] [] 1 1 ∧
      increment_warning_count (DBState.mk [] [] [] 1 1) "ghost" =
        DBState.mk [] [] [] 1 1 ∧
      lock_participant (DBState.mk [] [] [] 1 1) "ghost" true =
        DBState.mk [] [] [] 1 1 ∧
      update_integrity_score (DBState.mk [] [] [] 1 1) "ghost" 50 =
        DBState.mk [] [] [] 1 1 ∧
      create_violation (DBState.mk [] [] [] 1 1) "ghost" 7
          .application_blocked .medium "d" =
        .error "Participant ghost not found" ∧
      create_permission_request (DBState.mk [] [] [] 1 1) "ghost"
          "leave_seat" 10 Option.none =
        .error "Participant ghost not found") :=
  ⟨rfl, db_ops_unknown_participant_spec (DBState.mk [] [] [] 1 1) "ghost"
    0 50 true 7 .application_blocked .medium "d" "leave_seat" 10
    Option.none rfl⟩

/-- C6 (evidence): the permission workflow cannot exhibit the claimed
behavior.  The `Enum(PermissionStatus)` column stores member NAMES, but
the manager binds the lowercase VALUE strings:
(a) `create_permission_request` for a KNOWN participant inserts the
literal "pending" and then raises LookupError at `session.refresh`, so
the transaction rolls back and nothing is persisted;
(b) approving a correctly stored PENDING request returns `true` and does
set `approved_at = T` and `expires_at = T + duration_minutes` — but it
stores the literal string "approved", which is not a member name;
(c) `get_active_permission` before expiry (`now < T + D`) then raises
LookupError while materializing the matched row, instead of returning
the approved request the claim prescribes, and at or after expiry the
time filter simply drops the row (`Except.ok none`). -/
theorem permission_enum_value_name_mismatch :
    (create_permission_request demoDB "P1" "leave_seat" 10 Option.none =
      .error (enumLookupError "pending")) ∧
    (approve_permission_request demoDB 1 100 = .ok (true, approvedDemoDB)) ∧
    ((approvedDemoDB.requests.find? (fun r => r.id == 1)).map
        (fun r => (r.status, r.approved_at, r.expires_at, r.duration_minutes)) =
      some ("approved", some 100, some 110, 10)) ∧
    (PermissionStatus.fromName "approved" = Option.none) ∧
    (get_active_permission approvedDemoDB "P1" 105 =
      .error (enumLookupError "approved")) ∧
    (get_active_permission approvedDemoDB "P1" 110 = .ok Option.none) :=
  ⟨rfl, rfl, rfl, rfl, rfl, rfl⟩

/-! ## Integrity-score theorem -/

/-- C4: after a violation the recomputed integrity score of a stored
participant with `violation_count = v` and `warning_count = w` equals
`max(0, 100 − 5·v − 2·w)`; it is clamped at 0, and the recomputed value
is monotonically non-increasing as `v` or `w` grows. -/
theorem integrity_score_recompute_spec (db : DBState) (pid : String)
    (p : Participant) (h : findParticipant db.participants pid = some p) :
    (∃ p', findParticipant (update_integrity_score_app db pid).participants
        pid = some p' ∧
      p'.integrity_score =
        max 0 (100 - 5 * (p.violation_count : Int) - 2 * (p.warning_count : Int)) ∧
      0 ≤ p'.integrity_score ∧
      p'.violation_count = p.violation_count ∧
      p'.warning_count = p.warning_count) ∧
    (∀ v1 v2 w1 w2 : Nat, v1 ≤ v2 → w1 ≤ w2 →
      max 0 (100 - 5 * (v2 : Int) - 2 * (w2 : Int)) ≤
        max 0 (100 - 5 * (v1 : Int) - 2 * (w1 : Int))) := by
  constructor
  · have hkey := List.find?_some h
    have harith : (100 - (p.violation_count : Int) * 5 -
        (p.warning_count : Int) * 2) =
        (100 - 5 * (p.violation_count : Int) - 2 * (p.warning_count : Int)) := by
      ring
    refine ⟨{ p with integrity_score :=
        (max 0 (100 - (p.violation_count : Int) * 5 - (p.warning_count : Int) * 2)) },
      ?_, ?_, le_max_left 0 _, rfl, rfl⟩
    · unfold update_integrity_score_app
      rw [h]
      exact find?_updateFirst _ _ _ _ h hkey
    · simp only [harith]
  · intro v1 v2 w1 w2 hv hw
    apply max_le_max le_rfl
    omega

theorem integrity_score_recompute_spec_witness :
    (∃ p', findParticipant (update_integrity_score_app demoDB "P1").participants
        "P1" = some p' ∧
      p'.integrity_score =
        max 0 (100 - 5 * ((demoParticipant.violation_count : Nat) : Int) -
          2 * ((demoParticipant.warning_count : Nat) : Int)) ∧
      0 ≤ p'.integrity_score ∧
      p'.violation_count = demoParticipant.violation_count ∧
      p'.warning_count = demoParticipant.warning_count) ∧
    max 0 (100 - 5 * ((4 : Nat) : Int) - 2 * ((5 : Nat) : Int)) ≤
      max 0 (100 - 5 * ((3 : Nat) : Int) - 2 * ((2 : Nat) : Int)) :=
  ⟨(integrity_score_recompute_spec demoDB "P1" demoParticipant rfl).1,
   (integrity_score_recompute_spec demoDB "P1" demoParticipant rfl).2
     3 4 2 5 (by decide) (by decide)⟩

/-! ## Registration theorem -/

/-- C3: handling REGISTER checks, in order, (1) the participant id is in
the roster, (2) the supplied name matches case-insensitively, (3) a
current active exam session exists and equals the assigned
`exam_session_id`.  Each failed check replies
`REGISTER_ACK{status:"rejected"}` with its specific message and mutates
nothing; when all pass, the row gets `computer_ip`/`computer_name`,
`is_active := true`, `last_heartbeat := now`, and the reply is
`REGISTER_ACK{status:"registered", participant_id, exam_session_id}`. -/
theorem handle_register_validation_spec (st : AppState) (pid : String)
    (m : Message) (now : Nat) :
    (findParticipant st.db.participants pid = Option.none →
      handle_register st pid m now =
        (st, { type := .register_ack
               data := [("status", .str "rejected"),
                        ("message", .str (s!"ID Peserta {pid} tidak terdaftar." ++
                          " Silakan hubungi pengawas."))]
               participant_id := some pid
               timestamp := "" })) ∧
    (∀ p, findParticipant st.db.participants pid = some p →
      pyLower p.name ≠ pyLower (pyStrip (getStr m.data "name")) →
      handle_register st pid m now =
        (st, { type := .register_ack
               data := [("status", .str "rejected"),
                        ("message", .str
                          ("Nama tidak sesuai. Nama yang terdaftar: " ++ p.name))]
               participant_id := some pid
               timestamp := "" })) ∧
    (∀ p, findParticipant st.db.participants pid = some p →
      pyLower p.name = pyLower (pyStrip (getStr m.data "name")) →
      (st.current_session_id = Option.none ∨
        p.exam_session_id ≠ st.current_session_id) →
      handle_register st pid m now =
        (st, { type := .register_ack
               data := [("status", .str "rejected"),
                        ("message", .str "Sesi ujian tidak aktif atau tidak sesuai.")]
               participant_id := some pid
               timestamp := "" })) ∧
    (∀ p sid, findParticipant st.db.participants pid = some p →
      pyLower p.name = pyLower (pyStrip (getStr m.data "name")) →
      st.current_session_id = some sid →
      p.exam_session_id = some sid →
      ((handle_register st pid m now).2 =
        { type := .register_ack
          data := [("status", .str "registered"),
                   ("participant_id", .str pid),
                   ("exam_session_id", .int (sid : Int))]
          participant_id := some pid
          timestamp := "" } ∧
       (∃ p', findParticipant
            (handle_register st pid m now).1.db.participants pid = some p' ∧
          p'.computer_ip = some (getStr m.data "computer_ip") ∧
          p'.computer_name = some (getStr m.data "computer_name") ∧
          p'.is_active = true ∧
          p'.last_heartbeat = some now ∧
          p'.name = p.name ∧
          p'.warning_count = p.warning_count ∧
          p'.is_locked = p.is_locked) ∧
       (handle_register st pid m now).1.db.violations = st.db.violations ∧
       (handle_register st pid m now).1.db.requests = st.db.requests ∧
       (handle_register st pid m now).1.current_session_id =
         st.current_session_id)) := by
  refine ⟨?_, ?_, ?_, ?_⟩
  · intro h1
    simp only [handle_register]
    rw [h1]
  · intro p h1 hname
    simp only [handle_register]
    rw [h1]
    simp only [if_pos hname]
  · intro p h1 hname hsess
    simp only [handle_register, h1]
    rw [if_neg (not_not_intro hname), if_pos hsess]
  · intro p sid h1 hname hcur hexam
    have hkey := List.find?_some h1
    have hsessneg : ¬(st.current_session_id = Option.none ∨
        p.exam_session_id ≠ st.current_session_id) := by
      simp [hcur, hexam]
    refine ⟨?_, ?_, ?_, ?_, ?_⟩
    · simp only [handle_register, h1]
      rw [if_neg (not_not_intro hname), if_neg hsessneg, hcur]
    · refine ⟨{ p with
          computer_ip := some (getStr m.data "computer_ip")
          computer_name := some (getStr m.data "computer_name")
          is_active := true
          last_heartbeat := some now }, ?_, rfl, rfl, rfl, rfl, rfl, rfl, rfl⟩
      simp only [handle_register, h1]
      rw [if_neg (not_not_intro hname), if_neg hsessneg]
      exact find?_updateFirst _ _ _ _ h1 hkey
    · simp only [handle_register, h1]
      rw [if_neg (not_not_intro hname), if_neg hsessneg]
    · simp only [handle_register, h1]
      rw [if_neg (not_not_intro hname), if_neg hsessneg]
    · simp only [handle_register, h1]
      rw [if_neg (not_not_intro hname), if_neg hsessneg]

theorem handle_register_validation_spec_witness :
    (handle_register regDemoApp "P1" regDemoMsg 42).2 =
      { type := .register_ack
        data := [("status", PyValue.str "registered"),
                 ("participant_id", PyValue.str "P1"),
                 ("exam_session_id", PyValue.int ((7 : Nat) : Int))]
        participant_id := some "P1"
        timestamp := "" } ∧
    (∃ p', findParticipant
        (handle_register regDemoApp "P1" regDemoMsg 42).1.db.participants
        "P1" = some p' ∧
      p'.computer_ip = some (getStr regDemoMsg.data "computer_ip") ∧
      p'.computer_name = some (getStr regDemoMsg.data "computer_name") ∧
      p'.is_active = true ∧
      p'.last_heartbeat = some 42 ∧
      p'.name = demoParticipant.name ∧
      p'.warning_count = demoParticipant.warning_count ∧
      p'.is_locked = demoParticipant.is_locked) := by
  have h := (handle_register_validation_spec regDemoApp "P1" regDemoMsg 42).2.2.2
    demoParticipant 7 rfl (by decide) rfl rfl
  exact ⟨h.1, h.2.1⟩

/-- C1 (evidence): in the scenario of the claim, after the 3rd sequential
violation the stored warning_count is 3 and lock_state is still UNLOCKED,
but NO flag warning has been sent, and the three WARNING messages carry
warning_count 0, 1 and 2 — the engine fills the payload and evaluates
both thresholds from the participant row fetched *before*
`increment_warning_count` (a stale, pre-increment value), not from the
new warning_count the claim (and spec §4.4) prescribes. -/
theorem auto_escalation_stale_warning_count :
    ((findParticipant (escalationStep^[3] (escalationApp, [])).1.db.participants
        "P1").map Participant.warning_count = some 3) ∧
    ((findParticipant (escalationStep^[3] (escalationApp, [])).1.db.participants
        "P1").map Participant.is_locked = some false) ∧
    ((escalationStep^[3] (escalationApp, [])).2.countP
        (fun msg => decide (("flag", PyValue.bool true) ∈ msg.data)) = 0) ∧
    ((escalationStep^[3] (escalationApp, [])).2.map
        (fun msg => dget msg.data "warning_count") =
      [some (.int 0), some (.int 1), some (.int 2)]) ∧
    ((escalationStep^[3] (escalationApp, [])).2.map Message.type =
      [.warning, .warning, .warning]) := by
  decide

/-! ## Connection-registry theorems -/

theorem dget_filter_out_self (l : List (String × β)) (pid : String) :
    dget (l.filter (fun kv => !(kv.1 == pid))) pid = Option.none := by
  induction l with
  | nil => rfl
  | cons kv rest ih =>
    rw [List.filter_cons]
    cases hk : (kv.1 == pid) with
    | true => simpa [hk] using ih
    | false =>
      simp only [hk, Bool.not_false, if_true]
      simp only [dget, List.find?_cons, hk]
      exact ih

theorem dget_filter_out_other (l : List (String × β)) (pid k : String)
    (v : β) (h : dget (l.filter (fun kv => !(kv.1 == pid))) k = some v) :
    dget l k = some v := by
  induction l with
  | nil => simp [dget] at h
  | cons kv rest ih =>
    rw [List.filter_cons] at h
    cases hk : (kv.1 == k) with
    | true =>
      cases hq : (kv.1 == pid) with
      | false =>
        rw [if_pos (by simp [hq])] at h
        simp only [dget, List.find?_cons, hk] at h ⊢
        exact h
      | true =>
        rw [if_neg (by simp [hq])] at h
        have hkpid : k = pid := by
          have h1 : kv.1 = k := by simpa using hk
          have h2 : kv.1 = pid := by simpa using hq
          rw [← h1, h2]
        rw [hkpid, dget_filter_out_self rest pid] at h
        exact absurd h (by simp)
    | false =>
      cases hq : (kv.1 == pid) with
      | false =>
        rw [if_pos (by simp [hq])] at h
        simp only [dget, List.find?_cons, hk] at h ⊢
        exact ih h
      | true =>
        rw [if_neg (by simp [hq])] at h
        simp only [dget, List.find?_cons, hk]
        exact ih h

/-- C7: `send` returns `false` — without queueing or retrying — when no
live handle is registered for the id or when the transport write fails;
a failed write immediately disconnects the participant, removing the live
handle; when a registered handle exists and the write succeeds, `send`
returns `true` and the registry is untouched. -/
theorem send_message_delivery_spec (st : ServerState) (pid : String)
    (m : Message) (now : Nat) :
    (dget st.connected_clients pid = Option.none →
      send_message st pid m now = (false, st)) ∧
    (dget st.connected_clients pid = some false →
      send_message st pid m now = (false, disconnect_client st pid now) ∧
      dget (send_message st pid m now).2.connected_clients pid =
        Option.none) ∧
    (dget st.connected_clients pid = some true →
      send_message st pid m now = (true, st)) := by
  refine ⟨?_, ?_, ?_⟩
  · intro h
    simp [send_message, h]
  · intro h
    constructor
    · simp [send_message, h]
    · simp only [send_message, h]
      exact dget_filter_out_self st.connected_clients pid
  · intro h
    simp [send_message, h]

theorem send_message_delivery_spec_witness :
    (send_message demoServer "P9" demoPing 3 = (false, demoServer)) ∧
    (send_message demoServer "P2" demoPing 3 =
        (false, disconnect_client demoServer "P2" 3) ∧
      dget (send_message demoServer "P2" demoPing 3).2.connected_clients
        "P2" = Option.none) ∧
    (send_message demoServer "P1" demoPing 3 = (true, demoServer)) :=
  ⟨(send_message_delivery_spec demoServer "P9" demoPing 3).1 rfl,
   (send_message_delivery_spec demoServer "P2" demoPing 3).2.1 rfl,
   (send_message_delivery_spec demoServer "P1" demoPing 3).2.2 rfl⟩

theorem send_message_dget_mono (st : ServerState) (pid k : String)
    (m : Message) (now : Nat) (v : Bool)
    (h : dget (send_message st pid m now).2.connected_clients k = some v) :
    dget st.connected_clients k = some v := by
  unfold send_message at h
  cases hl : dget st.connected_clients pid with
  | none => rw [hl] at h; exact h
  | some ok =>
    rw [hl] at h
    cases ok with
    | true => exact h
    | false =>
      simp only [disconnect_client] at h
      exact dget_filter_out_other _ _ _ _ h

theorem broadcastAux_log_fst (m : Message) (exclude : List String)
    (now : Nat) (l : List String) : ∀ st : ServerState,
    ((broadcastAux m exclude now st l).2.map Prod.fst) =
      l.filter (fun pid => !(decide (pid ∈ exclude))) := by
  induction l with
  | nil => intro st; rfl
  | cons pid rest ih =>
    intro st
    rw [List.filter_cons]
    by_cases hmem : pid ∈ exclude
    · rw [if_neg (by simp [hmem])]
      simp only [broadcastAux, if_pos hmem]
      exact ih st
    · rw [if_pos (by simp [hmem])]
      simp only [broadcastAux, if_neg hmem, List.map_cons]
      rw [ih]

theorem broadcastAux_delivered (m : Message) (exclude : List String)
    (now : Nat) (l : List String) : ∀ (st : ServerState) (pid : String),
    ((pid, true) ∈ (broadcastAux m exclude now st l).2) →
    dget st.connected_clients pid = some true := by
  induction l with
  | nil => intro st pid h; simp [broadcastAux] at h
  | cons q rest ih =>
    intro st pid h
    by_cases hmem : q ∈ exclude
    · simp only [broadcastAux, if_pos hmem] at h
      exact ih st pid h
    · simp only [broadcastAux, if_neg hmem] at h
      rw [List.mem_cons] at h
      cases h with
      | inl heq =>
        rw [Prod.ext_iff] at heq
        obtain ⟨h1, h2⟩ := heq
        simp only at h1 h2
        subst h1
        unfold send_message at h2
        cases hl : dget st.connected_clients pid with
        | none => rw [hl] at h2; simp at h2
        | some ok =>
          rw [hl] at h2
          cases ok with
          | true => rfl
          | false => simp at h2
      | inr hmem2 =>
        exact send_message_dget_mono st q pid m now true
          (ih (send_message st q m now).2 pid hmem2)

/-- C8: `broadcast` walks a point-in-time snapshot of the registered ids
and attempts a `send` for exactly the ids not in `exclude` — a failed
send to one participant never aborts the attempts to the others; no
message goes to an excluded id, and a delivery only ever happens to an id
that holds a registered live handle. -/
theorem broadcast_snapshot_spec (st : ServerState) (m : Message)
    (exclude : List String) (now : Nat) :
    ((broadcast_message st m exclude now).2.map Prod.fst =
      (st.connected_clients.map Prod.fst).filter
        (fun pid => !(decide (pid ∈ exclude)))) ∧
    (∀ pid, pid ∈ exclude →
      pid ∉ (broadcast_message st m exclude now).2.map Prod.fst) ∧
    (∀ pid, (pid, true) ∈ (broadcast_message st m exclude now).2 →
      dget st.connected_clients pid = some true) := by
  refine ⟨broadcastAux_log_fst m exclude now _ st, ?_, ?_⟩
  · intro pid hmem hcontra
    rw [broadcast_message, broadcastAux_log_fst m exclude now _ st] at hcontra
    have := List.of_mem_filter hcontra
    simp [hmem] at this
  · intro pid h
    exact broadcastAux_delivered m exclude now _ st pid h

theorem broadcast_snapshot_spec_witness :
    ((broadcast_message demoServer demoPing ["P2"] 3).2.map Prod.fst =
      (demoServer.connected_clients.map Prod.fst).filter
        (fun pid => !(decide (pid ∈ ["P2"])))) ∧
    ("P2" ∉ (broadcast_message demoServer demoPing ["P2"] 3).2.map Prod.fst) ∧
    (dget demoServer.connected_clients "P1" = some true) :=
  ⟨(broadcast_snapshot_spec demoServer demoPing ["P2"] 3).1,
   (broadcast_snapshot_spec demoServer demoPing ["P2"] 3).2.1 "P2" (by decide),
   (broadcast_snapshot_spec demoServer demoPing ["P2"] 3).2.2 "P1" (by decide)⟩

/-! ## Reconnection-client theorems -/

theorem cstep_stop_not_running (s s' : CState)
    (h : CStep s .stopCalled s') : s'.running = false := by
  cases h
  rfl

theorem cstep_keeps_not_running (s s' : CState) (e : CEv)
    (h : CStep s e s') (hr : s.running = false) :
    s'.running = false ∧ ∀ b, e ≠ .connectAttempt b := by
  cases h <;> simp_all

theorem ctrace_no_attempt_of_not_running (s s' : CState) (evs : List CEv)
    (h : CTrace s evs s') (hr : s.running = false) :
    ∀ b, CEv.connectAttempt b ∉ evs := by
  induction h with
  | nil => intro b; exact List.not_mem_nil _
  | cons hstep htail ih =>
    intro b
    rw [List.mem_cons]
    push_neg
    obtain ⟨hr', hne⟩ := cstep_keeps_not_running _ _ _ hstep hr
    exact ⟨fun hc => hne b hc.symm, ih hr' b⟩

theorem ctrace_append_split (l1 l2 : List CEv) : ∀ (s s2 : CState),
    CTrace s (l1 ++ l2) s2 →
    ∃ mid, CTrace s l1 mid ∧ CTrace mid l2 s2 := by
  induction l1 with
  | nil => intro s s2 h; exact ⟨s, CTrace.nil, h⟩
  | cons e rest ih =>
    intro s s2 h
    cases h with
    | cons hstep htail =>
      obtain ⟨mid, h1, h2⟩ := ih _ _ htail
      exact ⟨mid, CTrace.cons hstep h1, h2⟩

theorem cstep_attempt_source (s s' : CState) (b : Bool)
    (h : CStep s (.connectAttempt b) s') :
    s.running = true ∧ s.pc = .loopHead := by
  cases h <;> exact ⟨rfl, rfl⟩

theorem cstep_into_ready_loopHead (s s' : CState) (e : CEv)
    (h : CStep s e s') (hpc : s'.pc = .loopHead) (hr : s'.running = true) :
    e = .sleepBackoff := by
  cases h <;> simp_all

theorem cstep_from_registering (s s' : CState) (e : CEv)
    (h : CStep s e s') (hpc : s.pc = .registering) :
    (e = .sendRegister) ∨ (e = .stopCalled ∧ s'.pc = .registering) := by
  cases h <;> simp_all

theorem ctrace_stops_keep_registering (evs : List CEv) : ∀ (s s' : CState),
    CTrace s evs s' → s.pc = .registering →
    (∀ x ∈ evs, x = CEv.stopCalled) → s'.pc = .registering := by
  induction evs with
  | nil => intro s s' h hpc hall; cases h; exact hpc
  | cons e rest ih =>
    intro s s' h hpc hall
    cases h with
    | cons hstep htail =>
      have he : e = CEv.stopCalled := hall e (List.mem_cons_self e rest)
      subst he
      cases hstep with
      | do_stop hne =>
        exact ih _ _ htail hpc (fun x hx => hall x (List.mem_cons_of_mem _ hx))

/-- C9 (amended): over the transition system of `ProctoringClient.start`/
`stop`: (a) any connect attempt that is not the very first event of a run
is immediately preceded by the fixed 5-second backoff sleep — the initial
attempt happens immediately, every later one only after the backoff;
(b) after a successful connect, the next action of the loop (stop-events
from a concurrent `stop()` aside) is re-sending REGISTER; (c) once
`stop()` has cleared the desired-connected flag, no connect attempt ever
occurs again. -/
theorem reconnect_client_loop_spec :
    (∀ (s s2 : CState) (l1 l2 : List CEv) (e : CEv) (b : Bool),
      CTrace s (l1 ++ e :: CEv.connectAttempt b :: l2) s2 →
      e = CEv.sleepBackoff) ∧
    (∀ (s s2 : CState) (l1 l2 l3 : List CEv) (e : CEv),
      CTrace s (l1 ++ CEv.connectAttempt true :: (l2 ++ e :: l3)) s2 →
      (∀ x ∈ l2, x = CEv.stopCalled) → e ≠ CEv.stopCalled →
      e = CEv.sendRegister) ∧
    (∀ (s s2 : CState) (l1 l2 : List CEv) (b : Bool),
      CTrace s (l1 ++ CEv.stopCalled :: l2) s2 →
      CEv.connectAttempt b ∉ l2) := by
  refine ⟨?_, ?_, ?_⟩
  · intro s s2 l1 l2 e b h
    obtain ⟨mid, _, h2⟩ := ctrace_append_split l1 _ _ _ h
    cases h2 with
    | cons hstep htail =>
      cases htail with
      | cons hstep2 htail2 =>
        obtain ⟨hrun, hpc⟩ := cstep_attempt_source _ _ _ hstep2
        exact cstep_into_ready_loopHead _ _ _ hstep hpc hrun
  · intro s s2 l1 l2 l3 e h hstops hne
    obtain ⟨mid, _, h2⟩ := ctrace_append_split l1 _ _ _ h
    cases h2 with
    | cons hstep htail =>
      cases hstep with
      | attempt_ok =>
        obtain ⟨mid2, htr2, h3⟩ := ctrace_append_split l2 _ _ _ htail
        have hreg2 : mid2.pc = .registering :=
          ctrace_stops_keep_registering l2 _ _ htr2 rfl hstops
        cases h3 with
        | cons hstep3 htail3 =>
          cases cstep_from_registering _ _ _ hstep3 hreg2 with
          | inl he => exact he
          | inr he => exact absurd he.1 hne
  · intro s s2 l1 l2 b h
    obtain ⟨mid, _, h2⟩ := ctrace_append_split l1 _ _ _ h
    cases h2 with
    | cons hstep htail =>
      exact ctrace_no_attempt_of_not_running _ _ _ htail
        (cstep_stop_not_running _ _ hstep) b

/-- C9 (counterexample): from the initial state of `start` (flag set,
transport absent) the very first event of the loop is already a connect
attempt, with no backoff sleep anywhere before it — the assertion "whenever
the flag is set and the transport is absent (initially, after a failure,
or after a clean close), it attempts to (re)connect after the fixed
5-second backoff interval" is false for the initial case: the first
attempt is immediate. -/
theorem reconnect_initial_attempt_no_backoff :
    CTrace cInit [CEv.connectAttempt true]
      { running := true, is_connected := true, pc := .registering } ∧
    List.count CEv.sleepBackoff [CEv.connectAttempt true] = 0 :=
  ⟨CTrace.cons CStep.attempt_ok CTrace.nil, rfl⟩

theorem reconnect_client_loop_spec_witness :
    (CEv.sleepBackoff = CEv.sleepBackoff) ∧
    (CEv.sendRegister = CEv.sendRegister) ∧
    (CEv.connectAttempt true ∉ [CEv.connLost]) := by
  have htr : CTrace cInit [CEv.connectAttempt false, CEv.sleepBackoff,
      CEv.connectAttempt true, CEv.sendRegister, CEv.stopCalled, CEv.connLost]
      { running := false, is_connected := false, pc := .postSession } :=
    CTrace.cons CStep.attempt_fail (CTrace.cons CStep.do_sleep
      (CTrace.cons CStep.attempt_ok (CTrace.cons CStep.do_register
      (CTrace.cons (CStep.do_stop (by decide)) (CTrace.cons
      (CStep.listen_done (Or.inl rfl)) CTrace.nil)))))
  refine ⟨?_, ?_, ?_⟩
  · exact reconnect_client_loop_spec.1 cInit _ [CEv.connectAttempt false]
      [CEv.sendRegister, CEv.stopCalled, CEv.connLost] CEv.sleepBackoff true htr
  · exact reconnect_client_loop_spec.2.1 cInit _
      [CEv.connectAttempt false, CEv.sleepBackoff] [] [CEv.stopCalled, CEv.connLost]
      CEv.sendRegister htr (by simp) (by decide)
  · exact reconnect_client_loop_spec.2.2 cInit _
      [CEv.connectAttempt false, CEv.sleepBackoff, CEv.connectAttempt true,
       CEv.sendRegister] [CEv.connLost] true htr
